import Mathlib

/-!
Verification of the FastAPI model client classes in `bio/model/__init__.py`
of the biodiversity-model-trainer repository.

The file embeds the three classes `FastAPIBaseModel`, `YOLOv5` and `KClassify`
shallowly: scores are rationals, the single network round trip performed by
`requests.post` followed by `response.json()` is abstracted as a `Transport`
outcome supplied by the environment, and exception propagation is made explicit
with `Except`. Python call arity is modelled where it matters: the base class
method `predict_bytes` declares exactly one positional parameter besides
`self`, so a call site that passes two positional arguments raises `TypeError`
before the body runs.
-/

namespace BioModel

open List

/-- A classification result record: the `score` and `label` fields of one
entry of the service response's `result` list. -/
structure ClassItem where
  score : ℚ
  label : String
deriving DecidableEq, Repr

/-- A detection result record: the `confidence` field of one entry of the
service response's `result` list, with the remaining detector-specific fields
passed through unchanged as an uninterpreted payload. -/
structure DetItem where
  confidence : ℚ
  payload : String
deriving DecidableEq, Repr

/-- The structured body returned by the classification service: a dictionary
with a top-level `result` list. -/
structure ClassResponse where
  result : List ClassItem
deriving DecidableEq, Repr

/-- The structured body returned by the detection service. -/
structure DetResponse where
  result : List DetItem
deriving DecidableEq, Repr

/-- The Python exception kinds that can propagate out of the client code:
`typeError` for a call with the wrong number of positional arguments,
`transportError` for `requests` connection failures, `decodeError` when
`response.json()` cannot parse the body, and `imageLoadError` when
`Image.open` fails. -/
inductive PyErr
  | typeError
  | transportError
  | decodeError
  | imageLoadError
deriving DecidableEq, Repr

/-- Outcome of the one network round trip made by `post` followed by
`response.json()`: the endpoint is unreachable, the body does not decode,
or a decoded response of type `α` comes back. -/
inductive Transport (α : Type)
  | unreachable
  | badBody
  | ok (resp : α)

/-- Python values passed as positional arguments to `predict_bytes`:
raw bytes, an open `BytesIO` stream, or a number. -/
inductive PyVal
  | bytes (payload : List Nat)
  | stream (payload : List Nat)
  | num (q : ℚ)
deriving DecidableEq, Repr

/-- Models Python `s.endswith(t)`: true exactly when `t` is a suffix of `s`. -/
def pyEndsWith (s t : String) : Bool :=
  t.data.isSuffixOf s.data

/-- Embeds the endpoint normalization in `FastAPIBaseModel.__init__`
(lines 30-33): append a trailing slash when one is absent. Both branches are
total, so construction succeeds on every input string, the empty string
included. -/
def normalizeEndpoint (endpoint : String) : String :=
  if pyEndsWith endpoint "/" then endpoint else endpoint ++ "/"

/-- The object state of a `FastAPIBaseModel` instance: the single attribute
`self.endpoint` assigned in `__init__`. -/
structure FastAPIBaseModel where
  endpoint : String
deriving DecidableEq, Repr

/-- Embeds `FastAPIBaseModel.__init__`: store the normalized endpoint. -/
def FastAPIBaseModel.init (endpoint : String) : FastAPIBaseModel :=
  ⟨normalizeEndpoint endpoint⟩

/-- Embeds the body of `FastAPIBaseModel.predict_bytes` (lines 35-42):
`post(self.endpoint, files=[('file', image_bytes)])` then `response.json()`.
The function `net` maps the endpoint used for the post to the outcome of this
single call; there is no try/except around it, so a failure propagates as is,
with no retry and no fallback value. -/
def FastAPIBaseModel.predict_bytes {α : Type} (self : FastAPIBaseModel)
    (net : String → Transport α) (image_bytes : PyVal) : Except PyErr α :=
  match net self.endpoint with
  | .unreachable => .error .transportError
  | .badBody => .error .decodeError
  | .ok resp => .ok resp

/-- Python call semantics for `FastAPIBaseModel.predict_bytes`: the method
declares exactly one positional parameter besides `self`, so a call with any
other number of positional arguments raises `TypeError` before the body (and
hence before any network activity) runs. -/
def FastAPIBaseModel.predict_bytes_call {α : Type} (self : FastAPIBaseModel)
    (net : String → Transport α) (args : List PyVal) : Except PyErr α :=
  match args with
  | [image_bytes] => self.predict_bytes net image_bytes
  | _ => .error .typeError

/-- State-passing form of `FastAPIBaseModel.predict_bytes`: the body reads
`self.endpoint` and assigns no attribute, so the object state after the call
is the object state passed in. -/
def FastAPIBaseModel.predict_bytes_st {α : Type} (self : FastAPIBaseModel)
    (net : String → Transport α) (image_bytes : PyVal) :
    Except PyErr α × FastAPIBaseModel :=
  (self.predict_bytes net image_bytes, self)

/-- Outcome of `Image.open(image_path)` followed by the JPEG re-encode:
either opening/decoding fails (raising before any handle must be released),
or it opens and yields the encoded bytes. -/
inductive ImageOpen
  | fails
  | opens (jpegBytes : List Nat)

/-- Whether the image handle acquired by `Image.open` was released when the
operation finished: never acquired, closed by `image.close()`, or leaked
because the straight-line code skipped `image.close()` when an exception
propagated. -/
inductive HandleState
  | neverOpened
  | closed
  | leaked
deriving DecidableEq, Repr

/-- Embeds `YOLOv5.predict_file` (lines 50-62): open and re-encode the image,
call `super().predict_bytes(byte_io, threshold)` — note the two positional
arguments — then `image.close()`, then keep the results whose `confidence`
is at least the threshold. `image.close()` is reached only when the call
returns normally; an exception propagates with the handle still open. -/
def YOLOv5.predict_file (self : FastAPIBaseModel) (net : String → Transport DetResponse)
    (image : ImageOpen) (threshold : ℚ) : Except PyErr (List DetItem) × HandleState :=
  match image with
  | .fails => (.error .imageLoadError, .neverOpened)
  | .opens jpegBytes =>
    match FastAPIBaseModel.predict_bytes_call self net [.stream jpegBytes, .num threshold] with
    | .error e => (.error e, .leaked)
    | .ok results =>
      (.ok (results.result.filter fun result => threshold ≤ result.confidence), .closed)

/-- The descending score order used as sort key in `KClassify.predict_bytes`:
`a` may come before `b` when the score of `b` is at most the score of `a`. -/
def scoreDesc (a b : ClassItem) : Prop := b.score ≤ a.score

instance : DecidableRel scoreDesc :=
  fun a b => inferInstanceAs (Decidable (b.score ≤ a.score))

instance : IsTotal ClassItem scoreDesc :=
  ⟨fun a b => le_total b.score a.score⟩

instance : IsTrans ClassItem scoreDesc :=
  ⟨fun _ _ _ hab hbc => le_trans hbc hab⟩

/-- Python slice `l[:n]` for an arbitrary integer `n`: a non-negative stop
takes the first `n` elements; a negative stop counts from the end, clamped
at zero. -/
def pySliceTo {α : Type} (l : List α) (n : Int) : List α :=
  if n < 0 then l.take (l.length + n).toNat else l.take n.toNat

namespace KClassify

/-- The list comprehension at line 82 of `KClassify.predict_bytes`: keep the
entries of the response's `result` list whose `score` is at least the
threshold. -/
def filterStep (threshold : ℚ) (results : List ClassItem) : List ClassItem :=
  results.filter fun result => threshold ≤ result.score

/-- Line 85: `sorted(results, key=lambda k: k['score'], reverse=True)`.
Python's `sorted` is a stable sort, and `reverse=True` sorts as if each
comparison were reversed while keeping equal keys in input order; this is
the stable insertion sort under the reversed non-strict score order. -/
def sortStep (results : List ClassItem) : List ClassItem :=
  results.insertionSort scoreDesc

/-- The rank step of `KClassify.predict_bytes` (lines 85-88): sort descending
by score, then apply the Python slice `results[:top_n]`. -/
def rankStep (top_n : Int) (results : List ClassItem) : List ClassItem :=
  pySliceTo (sortStep results) top_n

/-- Embeds `KClassify.predict_bytes` (lines 71-90): call the base class
`predict_bytes` with one positional argument, then filter by threshold, sort
descending by score and truncate to the first `top_n`. -/
def predict_bytes (self : FastAPIBaseModel) (net : String → Transport ClassResponse)
    (image_bytes : PyVal) (threshold : ℚ) (top_n : Int) : Except PyErr (List ClassItem) :=
  match FastAPIBaseModel.predict_bytes_call self net [image_bytes] with
  | .error e => .error e
  | .ok results => .ok (rankStep top_n (filterStep threshold results.result))

/-- Embeds `KClassify.predict_file` (lines 92-105): open and re-encode the
image, pass the open `BytesIO` stream to `self.predict_bytes`, then
`image.close()`. The close at line 104 runs only when `predict_bytes`
returns normally; an exception propagates with the handle still open. -/
def predict_file (self : FastAPIBaseModel) (net : String → Transport ClassResponse)
    (image : ImageOpen) (threshold : ℚ) (top_n : Int) :
    Except PyErr (List ClassItem) × HandleState :=
  match image with
  | .fails => (.error .imageLoadError, .neverOpened)
  | .opens jpegBytes =>
    match predict_bytes self net (.stream jpegBytes) threshold top_n with
    | .error e => (.error e, .leaked)
    | .ok results => (.ok results, .closed)

end KClassify

/-! ### Helper lemmas -/

theorem pyEndsWith_append_slash (s : String) : pyEndsWith (s ++ "/") "/" = true := by
  have h : (s ++ "/").data = s.data ++ "/".data := String.data_append s "/"
  rw [pyEndsWith, h, List.isSuffixOf_iff_suffix]
  exact List.suffix_append _ _

theorem normalize_of_endsWith (s : String) (h : pyEndsWith s "/" = true) :
    normalizeEndpoint s = s := by
  simp [normalizeEndpoint, h]

theorem normalize_of_not_endsWith (s : String) (h : pyEndsWith s "/" = false) :
    normalizeEndpoint s = s ++ "/" := by
  simp [normalizeEndpoint, h]

theorem normalizeEndpoint_endsWith (s : String) :
    pyEndsWith (normalizeEndpoint s) "/" = true := by
  by_cases h : pyEndsWith s "/" = true
  · rw [normalize_of_endsWith s h]
    exact h
  · rw [normalize_of_not_endsWith s (by simpa using h)]
    exact pyEndsWith_append_slash s

theorem normalizeEndpoint_idem (s : String) :
    normalizeEndpoint (normalizeEndpoint s) = normalizeEndpoint s :=
  normalize_of_endsWith _ (normalizeEndpoint_endsWith s)

theorem sortStep_pairwise (l : List ClassItem) :
    (KClassify.sortStep l).Pairwise scoreDesc :=
  List.sorted_insertionSort scoreDesc l

theorem sortStep_length (l : List ClassItem) :
    (KClassify.sortStep l).length = l.length :=
  List.length_insertionSort scoreDesc l

/-- Stability of the sort step: the items carrying any one fixed score appear
in the sorted output exactly as they appear in the input. -/
theorem sortStep_filter_score (q : ℚ) (l : List ClassItem) :
    (KClassify.sortStep l).filter (fun x => x.score == q) =
      l.filter (fun x => x.score == q) := by
  have hpair : (l.filter (fun x => x.score == q)).Pairwise scoreDesc := by
    refine List.pairwise_of_forall_mem_list ?_
    intro a ha b hb
    have ha' : a.score = q := by simpa using List.of_mem_filter ha
    have hb' : b.score = q := by simpa using List.of_mem_filter hb
    simp [scoreDesc, ha', hb']
  have hsub : l.filter (fun x => x.score == q) <+ KClassify.sortStep l :=
    List.sublist_insertionSort hpair (List.filter_sublist l)
  have hself : (l.filter (fun x => x.score == q)).filter (fun x => x.score == q) =
      l.filter (fun x => x.score == q) :=
    List.filter_eq_self.mpr fun a ha => (List.mem_filter.mp ha).2
  have hsub2 : l.filter (fun x => x.score == q) <+
      (KClassify.sortStep l).filter (fun x => x.score == q) :=
    hself ▸ List.Sublist.filter (fun x => x.score == q) hsub
  have hperm : ((KClassify.sortStep l).filter (fun x => x.score == q)).Perm
      (l.filter (fun x => x.score == q)) :=
    List.Perm.filter _ (List.perm_insertionSort scoreDesc l)
  exact (hsub2.eq_of_length hperm.length_eq.symm).symm

theorem pySliceTo_sublist {α : Type} (l : List α) (n : Int) : pySliceTo l n <+ l := by
  rw [pySliceTo]
  split <;> exact List.take_sublist _ _

theorem pySliceTo_length_of_nonneg {α : Type} (l : List α) (n : Int) (hn : 0 ≤ n) :
    (pySliceTo l n).length = min n.toNat l.length := by
  rw [pySliceTo, if_neg (by omega), List.length_take]

/-! ### Claim theorems -/

/-- C1: for every threshold `t` and result list `R`, the classification filter
step returns exactly the subsequence of `R` of items with score at least `t`,
in the original relative order, and it contains no item with score below `t`:
it is a sublist of `R`, every retained item clears the threshold, and each
item is retained with its full multiplicity exactly when it clears the
threshold. -/
theorem C1_filter_exact (t : ℚ) (R : List ClassItem) :
    (KClassify.filterStep t R).Sublist R ∧
    (∀ x ∈ KClassify.filterStep t R, t ≤ x.score) ∧
    (∀ x : ClassItem, (KClassify.filterStep t R).count x =
      if t ≤ x.score then R.count x else 0) := by
  simp only [KClassify.filterStep]
  refine ⟨List.filter_sublist R, ?_, ?_⟩
  · intro x hx
    simpa using List.of_mem_filter hx
  · intro x
    by_cases h : t ≤ x.score
    · rw [if_pos h, List.count_filter]
      simpa using h
    · rw [if_neg h, List.count_eq_zero]
      intro hx
      exact h (by simpa using List.of_mem_filter hx)

/-- Witness for C1 at threshold 1 and a concrete two-element list. -/
theorem C1_filter_exact_witness :
    (KClassify.filterStep 1 [⟨(9:ℚ), "A"⟩, ⟨(0:ℚ), "B"⟩]).Sublist
      [⟨(9:ℚ), "A"⟩, ⟨(0:ℚ), "B"⟩] ∧
    (1:ℚ) ≤ (⟨(9:ℚ), "A"⟩ : ClassItem).score :=
  ⟨(C1_filter_exact 1 [⟨(9:ℚ), "A"⟩, ⟨(0:ℚ), "B"⟩]).1,
   (C1_filter_exact 1 [⟨(9:ℚ), "A"⟩, ⟨(0:ℚ), "B"⟩]).2.1
     ⟨(9:ℚ), "A"⟩ (by decide)⟩

/-- C2: for every non-negative integer `n` and result list `R`, the rank step
returns a list of length `min n (length R)` that is sorted in descending
order of score. -/
theorem C2_rank_length_sorted (n : Int) (hn : 0 ≤ n) (R : List ClassItem) :
    ((KClassify.rankStep n R).length : Int) = min n (R.length : Int) ∧
    (KClassify.rankStep n R).Pairwise scoreDesc := by
  constructor
  · rw [KClassify.rankStep, pySliceTo_length_of_nonneg _ n hn, sortStep_length]
    omega
  · rw [KClassify.rankStep]
    exact List.Pairwise.sublist (pySliceTo_sublist _ n) (sortStep_pairwise R)

/-- Witness for C2 at `n = 2` and a concrete three-element list. -/
theorem C2_rank_length_sorted_witness :
    ((KClassify.rankStep 2 [⟨(1:ℚ), "A"⟩, ⟨(3:ℚ), "B"⟩, ⟨(2:ℚ), "C"⟩]).length : Int) =
      min 2 (([⟨(1:ℚ), "A"⟩, ⟨(3:ℚ), "B"⟩, ⟨(2:ℚ), "C"⟩] : List ClassItem).length : Int) ∧
    (KClassify.rankStep 2 [⟨(1:ℚ), "A"⟩, ⟨(3:ℚ), "B"⟩, ⟨(2:ℚ), "C"⟩]).Pairwise scoreDesc :=
  C2_rank_length_sorted 2 (by decide) [⟨(1:ℚ), "A"⟩, ⟨(3:ℚ), "B"⟩, ⟨(2:ℚ), "C"⟩]

/-- C3: with a service that returns the fixed response with scores 9/10 for
label A and 2/5 for label B, `KClassify.predict_bytes` at threshold 1/2 and
top_n 5 returns exactly the one-element list with score 9/10 and label A,
for any client object and any input image bytes. -/
theorem C3_round_trip (self : FastAPIBaseModel) (image_bytes : PyVal) :
    KClassify.predict_bytes self
      (fun _ => Transport.ok ⟨[⟨(9:ℚ)/10, "A"⟩, ⟨(2:ℚ)/5, "B"⟩]⟩)
      image_bytes (1/2) 5 = .ok [⟨(9:ℚ)/10, "A"⟩] := by
  show Except.ok (KClassify.rankStep 5 (KClassify.filterStep (1/2)
      [⟨(9:ℚ)/10, "A"⟩, ⟨(2:ℚ)/5, "B"⟩])) = Except.ok [⟨(9:ℚ)/10, "A"⟩]
  norm_num [KClassify.rankStep, KClassify.filterStep, KClassify.sortStep, pySliceTo,
    scoreDesc, List.filter]

/-- C4 counterexample: at `top_n = -1` the truncation `results[:top_n]` is the
Python slice dropping the last element, so on a two-element list the rank
step returns one element, not the empty list the claim requires for every
`top_n ≤ 0`. -/
theorem C4_negative_top_n_counterexample :
    KClassify.rankStep (-1) [⟨(3:ℚ), "A"⟩, ⟨(1:ℚ), "B"⟩] = [⟨(3:ℚ), "A"⟩] ∧
    KClassify.rankStep (-1) [⟨(3:ℚ), "A"⟩, ⟨(1:ℚ), "B"⟩] ≠ [] := by
  constructor
  · decide
  · decide

/-- C4 amended: `top_n = 0` yields the empty list; a negative `top_n` yields
the descending-sorted list with its last `|top_n|` items dropped (hence empty
only when `|top_n|` is at least the length); `top_n` at least the length of
`R` yields the full descending-sorted list. -/
theorem C4_truncation_amended (R : List ClassItem) (n : Int) :
    KClassify.rankStep 0 R = [] ∧
    (n < 0 → KClassify.rankStep n R =
      (KClassify.sortStep R).take (R.length - (-n).toNat)) ∧
    ((R.length : Int) ≤ n → KClassify.rankStep n R = KClassify.sortStep R) := by
  refine ⟨?_, ?_, ?_⟩
  · rw [KClassify.rankStep, pySliceTo, if_neg (by omega)]
    simp
  · intro hneg
    rw [KClassify.rankStep, pySliceTo, if_pos hneg, sortStep_length]
    congr 1
    omega
  · intro hge
    rw [KClassify.rankStep, pySliceTo, if_neg (by omega)]
    refine List.take_of_length_le ?_
    rw [sortStep_length]
    omega

/-- Witness for C4's amended claim at a concrete two-element list with
`top_n = -1` and with `top_n = 5`. -/
theorem C4_truncation_amended_witness :
    KClassify.rankStep (-1) [⟨(3:ℚ), "A"⟩, ⟨(1:ℚ), "B"⟩] =
      (KClassify.sortStep [⟨(3:ℚ), "A"⟩, ⟨(1:ℚ), "B"⟩]).take
        (([⟨(3:ℚ), "A"⟩, ⟨(1:ℚ), "B"⟩] : List ClassItem).length - (-(-1) : Int).toNat) ∧
    KClassify.rankStep 5 [⟨(3:ℚ), "A"⟩, ⟨(1:ℚ), "B"⟩] =
      KClassify.sortStep [⟨(3:ℚ), "A"⟩, ⟨(1:ℚ), "B"⟩] :=
  ⟨(C4_truncation_amended [⟨(3:ℚ), "A"⟩, ⟨(1:ℚ), "B"⟩] (-1)).2.1 (by decide),
   (C4_truncation_amended [⟨(3:ℚ), "A"⟩, ⟨(1:ℚ), "B"⟩] 5).2.2 (by decide)⟩

/-- C5: evaluation of the detection pipeline showing the code never reaches
the filter: `YOLOv5.predict_file` calls the base `predict_bytes` with two
positional arguments (`byte_io` and `threshold`) where the method declares
one, so every call on a successfully opened image raises `TypeError` before
any network activity, and the image handle is leaked. -/
theorem C5_detection_pipeline_eval (self : FastAPIBaseModel)
    (net : String → Transport DetResponse) (jpegBytes : List Nat) (threshold : ℚ) :
    YOLOv5.predict_file self net (.opens jpegBytes) threshold =
      (.error .typeError, .leaked) := by
  rfl

/-- C6: constructing with `"localhost:3000/predict"` stores
`"localhost:3000/predict/"`, constructing with the latter leaves it
unchanged, and in general the normalization is idempotent and appends a
trailing slash exactly when one is absent. -/
theorem C6_endpoint_normalization :
    (FastAPIBaseModel.init "localhost:3000/predict").endpoint = "localhost:3000/predict/" ∧
    (FastAPIBaseModel.init "localhost:3000/predict/").endpoint = "localhost:3000/predict/" ∧
    (∀ s, normalizeEndpoint (normalizeEndpoint s) = normalizeEndpoint s) ∧
    (∀ s, pyEndsWith s "/" = true → normalizeEndpoint s = s) ∧
    (∀ s, pyEndsWith s "/" = false → normalizeEndpoint s = s ++ "/") :=
  ⟨by rfl, by rfl, normalizeEndpoint_idem, normalize_of_endsWith, normalize_of_not_endsWith⟩

/-- Witness for C6 at the strings "a/" and "a". -/
theorem C6_endpoint_normalization_witness :
    normalizeEndpoint "a/" = "a/" ∧ normalizeEndpoint "a" = "a" ++ "/" :=
  ⟨C6_endpoint_normalization.2.2.2.1 "a/" (by rfl),
   C6_endpoint_normalization.2.2.2.2 "a" (by rfl)⟩

/-- C7: evaluation showing the image handle is not released on the failure
path: when the endpoint is unreachable, `KClassify.predict_file` propagates
the transport failure and skips `image.close()`, leaving the opened handle
leaked — `image.close()` is not in a finally block. -/
theorem C7_leak_eval (self : FastAPIBaseModel) (jpegBytes : List Nat)
    (threshold : ℚ) (top_n : Int) :
    KClassify.predict_file self (fun _ => .unreachable) (.opens jpegBytes) threshold top_n =
      (.error .transportError, .leaked) := by
  rfl

/-- C8: with an unreachable endpoint, `predict_bytes` fails with the
transport error for every client object and every payload, and returns no
result of any kind; there is no retry and no fallback value in the body, so
the failure reaches the caller as is. -/
theorem C8_transport_failure (α : Type) (self : FastAPIBaseModel) (image_bytes : PyVal) :
    FastAPIBaseModel.predict_bytes (α := α) self (fun _ => .unreachable) image_bytes =
      .error .transportError ∧
    ∀ resp : α, FastAPIBaseModel.predict_bytes (α := α) self
      (fun _ => .unreachable) image_bytes ≠ .ok resp := by
  refine ⟨rfl, ?_⟩
  intro resp h
  have h' : (Except.error PyErr.transportError : Except PyErr α) = .ok resp := h
  exact Except.noConfusion h'

/-- Witness for C8 at a concrete client and empty payload. -/
theorem C8_transport_failure_witness :
    FastAPIBaseModel.predict_bytes (α := ClassResponse) (FastAPIBaseModel.init "e")
      (fun _ => .unreachable) (.bytes []) = .error .transportError :=
  (C8_transport_failure ClassResponse (FastAPIBaseModel.init "e") (.bytes [])).1

/-- C9: for every response list, threshold and non-negative `top_n`, the
classification output has length at most `top_n`, is sorted descending by
score, and for each fixed score the retained items appear in the same
relative order as in the filtered input (stable sort, and truncation only
removes a suffix of the sorted list). -/
theorem C9_classification_output (t : ℚ) (n : Int) (hn : 0 ≤ n) (R : List ClassItem) :
    ((KClassify.rankStep n (KClassify.filterStep t R)).length : Int) ≤ n ∧
    (KClassify.rankStep n (KClassify.filterStep t R)).Pairwise scoreDesc ∧
    ∀ q : ℚ, (KClassify.rankStep n (KClassify.filterStep t R)).filter
        (fun x => x.score == q) <+
      (KClassify.filterStep t R).filter (fun x => x.score == q) := by
  refine ⟨?_, ?_, ?_⟩
  · rw [KClassify.rankStep, pySliceTo_length_of_nonneg _ n hn]
    omega
  · rw [KClassify.rankStep]
    exact List.Pairwise.sublist (pySliceTo_sublist _ n) (sortStep_pairwise _)
  · intro q
    have h1 : KClassify.rankStep n (KClassify.filterStep t R) <+
        KClassify.sortStep (KClassify.filterStep t R) := pySliceTo_sublist _ n
    have h2 := List.Sublist.filter (fun x => x.score == q) h1
    rwa [sortStep_filter_score q (KClassify.filterStep t R)] at h2

/-- Witness for C9 at threshold 0, `top_n = 1` and a two-element list with
equal scores. -/
theorem C9_classification_output_witness :
    ((KClassify.rankStep 1 (KClassify.filterStep 0 [⟨(1:ℚ), "A"⟩, ⟨(1:ℚ), "B"⟩])).length : Int) ≤ 1 ∧
    (KClassify.rankStep 1 (KClassify.filterStep 0 [⟨(1:ℚ), "A"⟩, ⟨(1:ℚ), "B"⟩])).filter
        (fun x => x.score == (1:ℚ)) <+
      (KClassify.filterStep 0 [⟨(1:ℚ), "A"⟩, ⟨(1:ℚ), "B"⟩]).filter (fun x => x.score == (1:ℚ)) :=
  ⟨(C9_classification_output 0 1 (by decide) [⟨(1:ℚ), "A"⟩, ⟨(1:ℚ), "B"⟩]).1,
   (C9_classification_output 0 1 (by decide) [⟨(1:ℚ), "A"⟩, ⟨(1:ℚ), "B"⟩]).2.2 1⟩

/-- C10: construction is total and stores an endpoint that always ends with a
slash (the empty string is accepted and stored as "/"), and the stateful form
of `predict_bytes` returns the object state unchanged: no later operation
mutates the stored endpoint. -/
theorem C10_endpoint_invariant :
    (∀ s, pyEndsWith (FastAPIBaseModel.init s).endpoint "/" = true) ∧
    (FastAPIBaseModel.init "").endpoint = "/" ∧
    (∀ (α : Type) (self : FastAPIBaseModel) (net : String → Transport α)
      (image_bytes : PyVal),
      (FastAPIBaseModel.predict_bytes_st self net image_bytes).2 = self) :=
  ⟨fun s => normalizeEndpoint_endsWith s, by rfl, fun _ _ _ _ => rfl⟩

end BioModel
